import Mathlib

/-!
Verification of the personal-gallery persistence and validation layer of the
Art Institute Explorer application: the zod schemas of
`src/schemas/artworkSchema.ts` and `src/schemas/noteSchema.ts`, and the
localStorage CRUD helpers of `src/utils/galleryStorage.ts`.

The embedding models a JSON document as an inductive value, a JavaScript
number as a rational (zod's `z.number()` accepts any finite double, and every
double produced by `JSON.parse` is a rational), and the single localStorage
slot under the key `aic_gallery` as an optional raw value that is either a
string `JSON.parse` rejects or a parsed JSON document.

An object field that is absent models a JavaScript `undefined`; `Json.null`
models JSON `null`.  Accordingly a `string | null` position is an
`Option String` (`none` = null) and a `string | null | undefined` position is
an `Option (Option String)` (`none` = absent, `some none` = null).
-/

namespace ArtExplorer

/-- A parsed JSON document.  Objects keep their fields in order; the
programs below only ever build objects with pairwise distinct keys, and
lookup takes the first match. -/
inductive Json where
  | null
  | bool (b : Bool)
  | num (q : Rat)
  | str (s : String)
  | arr (elems : List Json)
  | obj (fields : List (String × Json))

/-- Reading a key of an object; any key of a non-object is absent, which is
how `zod` sees it (`z.object` fails on a non-object because every required
field of it is missing). -/
def Json.getField : Json → String → Option Json
  | .obj fields, key => fields.lookup key
  | _, _ => none

/-- Whether the value is a JSON string. -/
def Json.isStr : Json → Bool
  | .str _ => true
  | _ => false

/-- Whether the value is a JSON number. -/
def Json.isNum : Json → Bool
  | .num _ => true
  | _ => false

/-- Whether the value is an array; `Array.isArray` of the load path. -/
def Json.isArr : Json → Bool
  | .arr _ => true
  | _ => false

/-- Whether the value is JSON null. -/
def Json.isNull : Json → Bool
  | .null => true
  | _ => false

/-- Whether the value is a JSON string or JSON null. -/
def Json.isStrOrNull (v : Json) : Bool := v.isStr || v.isNull

/-- The result type of `ArtworkSchema.parse`: the `Artwork` record of
`src/schemas/artworkSchema.ts`. -/
structure Artwork where
  id : Rat
  title : String
  artist_title : Option String
  image_id : Option String
  date_display : Option (Option String)
  medium_display : Option (Option String)
  place_of_origin : Option (Option String)
  dimensions : Option (Option String)
deriving DecidableEq

/-- The result type of `SavedArtworkSchema.parse`: the `SavedArtwork` record
of `src/schemas/noteSchema.ts` — an `Artwork` snapshot plus the user note. -/
structure SavedArtwork where
  id : Rat
  title : String
  artist_title : Option String
  image_id : Option String
  date_display : Option (Option String)
  medium_display : Option (Option String)
  place_of_origin : Option (Option String)
  dimensions : Option (Option String)
  note : String
deriving DecidableEq

/-- The result type of `NoteSchema.parse` in `src/schemas/noteSchema.ts`. -/
structure Note where
  artworkId : Rat
  note : String
deriving DecidableEq

namespace Zod

/-- `z.number()`: the field must be present and be a number. -/
def reqNumber : Option Json → Option Rat
  | some (.num q) => some q
  | _ => none

/-- `z.string()`: the field must be present and be a string. -/
def reqString : Option Json → Option String
  | some (.str s) => some s
  | _ => none

/-- `z.string().default(d)`: an absent field becomes `d`; a present field
must be a string (null is not defaulted — it fails). -/
def strWithDefault (d : String) : Option Json → Option String
  | none => some d
  | some (.str s) => some s
  | some _ => none

/-- `z.string().max(n, msg).default(d)`: as `strWithDefault`, but a present
string longer than `n` is rejected. -/
def strMaxWithDefault (n : Nat) (d : String) : Option Json → Option String
  | none => some d
  | some (.str s) => if s.length ≤ n then some s else none
  | some _ => none

/-- `z.string().nullable()`: the field must be present; null passes through
as `none`, a string as `some`. -/
def reqNullableStr : Option Json → Option (Option String)
  | some .null => some none
  | some (.str s) => some (some s)
  | _ => none

/-- `z.string().nullable().default(d)`: an absent field becomes the default
`d`; null passes through as `none` (the default does not replace null). -/
def nullableStrWithDefault (d : Option String) : Option Json → Option (Option String)
  | none => some d
  | some .null => some none
  | some (.str s) => some (some s)
  | some _ => none

/-- `z.string().nullable().optional()`: an absent field stays absent
(`none`), null becomes `some none`, a string `some (some s)`. -/
def optNullableStr : Option Json → Option (Option (Option String))
  | none => some none
  | some .null => some (some none)
  | some (.str s) => some (some (some s))
  | some _ => none

end Zod

namespace ArtworkSchema

/-- `ArtworkSchema.parse` of `src/schemas/artworkSchema.ts`: requires a
numeric `id`; `title` defaults to "Unbekannter Titel" when absent;
`artist_title` is nullable and defaults to "Unbekannter Künstler" when
absent; `image_id` is nullable and defaults to null when absent; the four
descriptive fields are nullable and optional. -/
def parse (j : Json) : Option Artwork := do
  let id ← Zod.reqNumber (j.getField "id")
  let title ← Zod.strWithDefault "Unbekannter Titel" (j.getField "title")
  let artist ← Zod.nullableStrWithDefault (some "Unbekannter Künstler") (j.getField "artist_title")
  let image ← Zod.nullableStrWithDefault none (j.getField "image_id")
  let dateDisplay ← Zod.optNullableStr (j.getField "date_display")
  let mediumDisplay ← Zod.optNullableStr (j.getField "medium_display")
  let placeOfOrigin ← Zod.optNullableStr (j.getField "place_of_origin")
  let dims ← Zod.optNullableStr (j.getField "dimensions")
  some ⟨id, title, artist, image, dateDisplay, mediumDisplay, placeOfOrigin, dims⟩

end ArtworkSchema

namespace SavedArtworkSchema

/-- `SavedArtworkSchema.parse` of `src/schemas/noteSchema.ts`: requires a
numeric `id`, a string `title`, nullable `artist_title` and `image_id`;
the four descriptive fields are nullable and optional; `note` is a string
defaulted to the empty string when absent — the schema puts no length bound
on it. -/
def parse (j : Json) : Option SavedArtwork := do
  let id ← Zod.reqNumber (j.getField "id")
  let title ← Zod.reqString (j.getField "title")
  let artist ← Zod.reqNullableStr (j.getField "artist_title")
  let image ← Zod.reqNullableStr (j.getField "image_id")
  let dateDisplay ← Zod.optNullableStr (j.getField "date_display")
  let mediumDisplay ← Zod.optNullableStr (j.getField "medium_display")
  let placeOfOrigin ← Zod.optNullableStr (j.getField "place_of_origin")
  let dims ← Zod.optNullableStr (j.getField "dimensions")
  let note ← Zod.strWithDefault "" (j.getField "note")
  some ⟨id, title, artist, image, dateDisplay, mediumDisplay, placeOfOrigin, dims, note⟩

end SavedArtworkSchema

namespace NoteSchema

/-- `NoteSchema.parse` of `src/schemas/noteSchema.ts`: a numeric `artworkId`
and a `note` of at most 500 characters defaulted to the empty string.  This
is the only schema of the repository carrying the 500-character bound; the
gallery store does not use it. -/
def parse (j : Json) : Option Note := do
  let artworkId ← Zod.reqNumber (j.getField "artworkId")
  let note ← Zod.strMaxWithDefault 500 "" (j.getField "note")
  some ⟨artworkId, note⟩

end NoteSchema

/-- `JSON.stringify` of a `string | null` position. -/
def encodeNullableStr : Option String → Json
  | none => .null
  | some s => .str s

/-- `JSON.stringify` of an optional nullable field: an absent field
(`undefined` in JavaScript) is omitted from the serialized object. -/
def encodeOptField (key : String) : Option (Option String) → List (String × Json)
  | none => []
  | some v => [(key, encodeNullableStr v)]

/-- The JSON object `JSON.stringify` writes for one `SavedArtwork`. -/
def SavedArtwork.encode (a : SavedArtwork) : Json :=
  .obj ([("id", .num a.id), ("title", .str a.title),
         ("artist_title", encodeNullableStr a.artist_title),
         ("image_id", encodeNullableStr a.image_id)]
    ++ encodeOptField "date_display" a.date_display
    ++ encodeOptField "medium_display" a.medium_display
    ++ encodeOptField "place_of_origin" a.place_of_origin
    ++ encodeOptField "dimensions" a.dimensions
    ++ [("note", .str a.note)])

/-- The raw string stored under the `aic_gallery` localStorage key, seen from
the load path: either a string `JSON.parse` throws on, or the JSON document
it yields. -/
inductive RawValue where
  | malformed
  | json (j : Json)

/-- The localStorage slot under `GALLERY_STORAGE_KEY`; `none` when
`localStorage.getItem` returns null (no value stored). -/
structure Storage where
  slot : Option RawValue

/-- The empty storage: nothing stored under `aic_gallery`. -/
def Storage.empty : Storage := ⟨none⟩

/-- `loadGallery` of `src/utils/galleryStorage.ts`: an absent raw value
gives the empty collection, an unparsable raw value is caught and gives the
empty collection, a parsed document that is not an array gives the empty
collection, and every array element is passed through
`SavedArtworkSchema.parse` independently, failing elements being dropped. -/
def loadGallery (st : Storage) : List SavedArtwork :=
  match st.slot with
  | none => []
  | some .malformed => []
  | some (.json j) =>
    match j with
    | .arr elems => elems.filterMap SavedArtworkSchema.parse
    | _ => []

/-- `saveGallery` of `src/utils/galleryStorage.ts`: serializes the whole
collection and overwrites the `aic_gallery` slot with it.  The storage write
primitive is modelled as always succeeding (no quota failure). -/
def saveGallery (gallery : List SavedArtwork) : Storage :=
  ⟨some (.json (.arr (gallery.map SavedArtwork.encode)))⟩

/-- The failure modes the store can raise (as thrown errors in the source),
named by the check that raised them:  `noteTooLong` is `updateNote` throwing
on `note.length > 500`, `invalidRecord` is `SavedArtworkSchema.parse`
throwing on a record about to be written. -/
inductive GalleryError where
  | noteTooLong
  | invalidRecord
deriving DecidableEq

/-- The `SavedArtwork` object literal `addToGallery` builds: the catalog
fields are copied and the note starts empty. -/
def mkSaved (artwork : Artwork) : SavedArtwork :=
  { id := artwork.id, title := artwork.title, artist_title := artwork.artist_title,
    image_id := artwork.image_id, date_display := artwork.date_display,
    medium_display := artwork.medium_display, place_of_origin := artwork.place_of_origin,
    dimensions := artwork.dimensions, note := "" }

/-- `addToGallery` of `src/utils/galleryStorage.ts`: loads the gallery,
returns false without writing when a record with the same id exists,
otherwise validates the new record, appends it and persists. -/
def addToGallery (artwork : Artwork) (st : Storage) : Except GalleryError Bool × Storage :=
  let gallery := loadGallery st
  if gallery.any (fun item => item.id == artwork.id) then
    (.ok false, st)
  else
    let savedArtwork := mkSaved artwork
    match SavedArtworkSchema.parse savedArtwork.encode with
    | none => (.error .invalidRecord, st)
    | some validated => (.ok true, saveGallery (gallery ++ [validated]))

/-- `updateNote` of `src/utils/galleryStorage.ts`: throws when the note
exceeds 500 characters before touching storage, loads the gallery, returns
false when no record has the id, otherwise replaces the note of the first
matching record, re-validates that record and persists. -/
def updateNote (artworkId : Rat) (note : String) (st : Storage) :
    Except GalleryError Bool × Storage :=
  if note.length > 500 then
    (.error .noteTooLong, st)
  else
    let gallery := loadGallery st
    match gallery.findIdx? (fun item => item.id == artworkId) with
    | none => (.ok false, st)
    | some i =>
      match gallery[i]? with
      | none => (.ok false, st)
      | some item =>
        let withNote := { item with note := note }
        match SavedArtworkSchema.parse withNote.encode with
        | none => (.error .invalidRecord, st)
        | some validated => (.ok true, saveGallery (gallery.set i validated))

/-- `removeFromGallery` of `src/utils/galleryStorage.ts`: loads the gallery,
returns false when no record has the id, otherwise filters out every record
with the id and persists. -/
def removeFromGallery (artworkId : Rat) (st : Storage) : Bool × Storage :=
  let gallery := loadGallery st
  if gallery.any (fun item => item.id == artworkId) then
    (true, saveGallery (gallery.filter (fun item => item.id != artworkId)))
  else
    (false, st)

/-- `isInGallery` of `src/utils/galleryStorage.ts`. -/
def isInGallery (artworkId : Rat) (st : Storage) : Bool :=
  (loadGallery st).any (fun item => item.id == artworkId)

/-- `clearGallery` of `src/utils/galleryStorage.ts`: removes the slot. -/
def clearGallery (_st : Storage) : Storage := ⟨none⟩

/-- A sequence of `addToGallery` calls, each one acting on the storage the
previous call left behind. -/
def addSeq (st : Storage) (artworks : List Artwork) : Storage :=
  artworks.foldl (fun s a => (addToGallery a s).2) st

/-- A concrete catalog item, as in the end-to-end scenario of the spec. -/
def sampleArtwork : Artwork :=
  ⟨1, "Starry Night", some "Van Gogh", none, none, none, none, none⟩

/-- A second concrete catalog item with a distinct identifier. -/
def sampleArtwork2 : Artwork :=
  ⟨2, "Water Lilies", some "Monet", some "img2", none, none, none, none⟩

/-- The saved record `addToGallery` builds from `sampleArtwork`. -/
def sampleSaved : SavedArtwork := mkSaved sampleArtwork

/-- The saved record `addToGallery` builds from `sampleArtwork2`. -/
def sampleSaved2 : SavedArtwork := mkSaved sampleArtwork2

/-- A well-formed raw gallery record as `JSON.parse` would deliver it. -/
def goodRecordJson : Json :=
  .obj [("id", .num 1), ("title", .str "Starry Night"),
        ("artist_title", .str "Van Gogh"), ("image_id", .null)]

/-- What `SavedArtworkSchema.parse` makes of `goodRecordJson`. -/
def goodRecord : SavedArtwork :=
  ⟨1, "Starry Night", some "Van Gogh", none, none, none, none, none, ""⟩

/-- A raw gallery record with the required `id` field missing. -/
def missingIdJson : Json :=
  .obj [("title", .str "No identifier"), ("artist_title", .null), ("image_id", .null)]

/-- A 501-character note, one character over the documented limit. -/
def longNote : String := String.mk (List.replicate 501 'a')

/-- A 500-character note, exactly at the documented limit. -/
def note500 : String := String.mk (List.replicate 500 'b')

/-- A raw record carrying the 501-character note. -/
def longNoteJson : Json :=
  .obj [("id", .num 1), ("title", .str "t"), ("artist_title", .null),
        ("image_id", .null), ("note", .str longNote)]

/-- What `SavedArtworkSchema.parse` makes of `longNoteJson`. -/
def longNoteRecord : SavedArtwork :=
  ⟨1, "t", none, none, none, none, none, none, longNote⟩

/-- An untrusted catalog payload whose id is the non-integer number 1.5. -/
def nonIntegerIdJson : Json := .obj [("id", .num (3 / 2))]

/-- What `ArtworkSchema.parse` makes of `nonIntegerIdJson`: accepted, with
the fractional id carried through and every default filled. -/
def nonIntegerIdResult : Artwork :=
  ⟨3 / 2, "Unbekannter Titel", some "Unbekannter Künstler", none, none, none, none, none⟩

/-- An untrusted catalog payload with `artist_title` explicitly null. -/
def artistNullJson : Json := .obj [("id", .num 1), ("artist_title", .null)]

/-- What `ArtworkSchema.parse` makes of `artistNullJson`: the null creator
passes through, it is not replaced by the default. -/
def artistNullResult : Artwork :=
  ⟨1, "Unbekannter Titel", none, none, none, none, none, none⟩

/-- An untrusted catalog payload carrying only the required id. -/
def idOnlyJson : Json := .obj [("id", .num 1)]

/-- An untrusted catalog payload whose `title` is explicitly null. -/
def titleNullJson : Json := .obj [("id", .num 1), ("title", .null)]

/-- What `ArtworkSchema.parse` makes of `idOnlyJson`: every default filled. -/
def defaultedResult : Artwork :=
  ⟨1, "Unbekannter Titel", some "Unbekannter Künstler", none, none, none, none, none⟩

/-- A storage state holding exactly the sample record. -/
def galleryWithSample : Storage := saveGallery [sampleSaved]

/-- A raw note payload carrying only the required artworkId. -/
def noteIdOnlyJson : Json := .obj [("artworkId", .num 1)]

/-- The field is absent, or present with a value failing the type test. -/
def fieldMissingOrFails (test : Json → Bool) (o : Option Json) : Prop :=
  ∀ v, o = some v → test v = false

/-- The field is present with a value failing the type test. -/
def fieldPresentFails (test : Json → Bool) (o : Option Json) : Prop :=
  ∃ v, o = some v ∧ test v = false

end ArtExplorer

namespace ArtExplorer

theorem lookup_encodeOptField_self (k : String) (v : Option (Option String)) :
    (encodeOptField k v).lookup k = v.map encodeNullableStr := by
  cases v <;> simp [encodeOptField]

theorem lookup_encodeOptField_ne (k₁ k₂ : String) (v : Option (Option String))
    (h : (k₂ == k₁) = false) :
    (encodeOptField k₁ v).lookup k₂ = none := by
  cases v <;> simp [encodeOptField, List.lookup_cons, h]

theorem encode_getField_id (a : SavedArtwork) :
    a.encode.getField "id" = some (.num a.id) := by
  simp [SavedArtwork.encode, Json.getField, List.lookup_append, List.lookup_cons]

theorem encode_getField_title (a : SavedArtwork) :
    a.encode.getField "title" = some (.str a.title) := by
  simp [SavedArtwork.encode, Json.getField, List.lookup_append, List.lookup_cons]

theorem encode_getField_artist (a : SavedArtwork) :
    a.encode.getField "artist_title" = some (encodeNullableStr a.artist_title) := by
  simp [SavedArtwork.encode, Json.getField, List.lookup_append, List.lookup_cons]

theorem encode_getField_image (a : SavedArtwork) :
    a.encode.getField "image_id" = some (encodeNullableStr a.image_id) := by
  simp [SavedArtwork.encode, Json.getField, List.lookup_append, List.lookup_cons]

theorem encode_getField_date (a : SavedArtwork) :
    a.encode.getField "date_display" = a.date_display.map encodeNullableStr := by
  simp [SavedArtwork.encode, Json.getField, List.lookup_append, List.lookup_cons,
    lookup_encodeOptField_self, lookup_encodeOptField_ne]

theorem encode_getField_medium (a : SavedArtwork) :
    a.encode.getField "medium_display" = a.medium_display.map encodeNullableStr := by
  simp [SavedArtwork.encode, Json.getField, List.lookup_append, List.lookup_cons,
    lookup_encodeOptField_self, lookup_encodeOptField_ne]

theorem encode_getField_place (a : SavedArtwork) :
    a.encode.getField "place_of_origin" = a.place_of_origin.map encodeNullableStr := by
  simp [SavedArtwork.encode, Json.getField, List.lookup_append, List.lookup_cons,
    lookup_encodeOptField_self, lookup_encodeOptField_ne]

theorem encode_getField_dims (a : SavedArtwork) :
    a.encode.getField "dimensions" = a.dimensions.map encodeNullableStr := by
  simp [SavedArtwork.encode, Json.getField, List.lookup_append, List.lookup_cons,
    lookup_encodeOptField_self, lookup_encodeOptField_ne]

theorem encode_getField_note (a : SavedArtwork) :
    a.encode.getField "note" = some (.str a.note) := by
  simp [SavedArtwork.encode, Json.getField, List.lookup_append, List.lookup_cons,
    lookup_encodeOptField_ne]

theorem reqNullableStr_encode (v : Option String) :
    Zod.reqNullableStr (some (encodeNullableStr v)) = some v := by
  cases v <;> simp [Zod.reqNullableStr, encodeNullableStr]

theorem optNullableStr_encode (v : Option (Option String)) :
    Zod.optNullableStr (v.map encodeNullableStr) = some v := by
  rcases v with _ | _ | s <;> simp [Zod.optNullableStr, encodeNullableStr]

theorem SavedArtworkSchema.parse_encode (a : SavedArtwork) :
    SavedArtworkSchema.parse a.encode = some a := by
  simp [SavedArtworkSchema.parse, encode_getField_id, encode_getField_title,
    encode_getField_artist, encode_getField_image, encode_getField_date,
    encode_getField_medium, encode_getField_place, encode_getField_dims,
    encode_getField_note, reqNullableStr_encode, optNullableStr_encode,
    Zod.reqNumber, Zod.reqString, Zod.strWithDefault]


theorem loadGallery_saveGallery (g : List SavedArtwork) :
    loadGallery (saveGallery g) = g := by
  simp only [loadGallery, saveGallery, List.filterMap_map]
  have h : SavedArtworkSchema.parse ∘ SavedArtwork.encode = some := by
    funext a
    exact SavedArtworkSchema.parse_encode a
  rw [h, List.filterMap_some]

theorem addToGallery_eq (a : Artwork) (st : Storage) :
    addToGallery a st =
      if (loadGallery st).any (fun item => item.id == a.id) then (.ok false, st)
      else (.ok true, saveGallery (loadGallery st ++ [mkSaved a])) := by
  simp only [addToGallery, SavedArtworkSchema.parse_encode]


theorem updateNote_not_found (artworkId : Rat) (note : String) (st : Storage)
    (hlen : note.length ≤ 500)
    (hfind : (loadGallery st).findIdx? (fun item => item.id == artworkId) = none) :
    updateNote artworkId note st = (.ok false, st) := by
  simp only [updateNote, if_neg (Nat.not_lt.mpr hlen), hfind]

theorem updateNote_found (artworkId : Rat) (note : String) (st : Storage)
    (i : Nat) (item : SavedArtwork)
    (hlen : note.length ≤ 500)
    (hfind : (loadGallery st).findIdx? (fun x => x.id == artworkId) = some i)
    (hitem : (loadGallery st)[i]? = some item) :
    updateNote artworkId note st =
      (.ok true, saveGallery ((loadGallery st).set i { item with note := note })) := by
  simp only [updateNote, if_neg (Nat.not_lt.mpr hlen), hfind, hitem,
    SavedArtworkSchema.parse_encode]

theorem findIdx?_getElem?_isSome {l : List SavedArtwork} {p : SavedArtwork → Bool} {i : Nat}
    (h : l.findIdx? p = some i) : ∃ item, l[i]? = some item ∧ p item = true := by
  rcases List.findIdx?_eq_some_iff_getElem.mp h with ⟨hi, hp, _⟩
  exact ⟨l[i], by simp [List.getElem?_eq_getElem hi], hp⟩


theorem reqNumber_eq_none_iff (o : Option Json) :
    Zod.reqNumber o = none ↔ fieldMissingOrFails Json.isNum o := by
  rcases o with _ | v
  · simp [Zod.reqNumber, fieldMissingOrFails]
  · cases v <;> simp [Zod.reqNumber, fieldMissingOrFails, Json.isNum]

theorem strWithDefault_eq_none_iff (d : String) (o : Option Json) :
    Zod.strWithDefault d o = none ↔ fieldPresentFails Json.isStr o := by
  rcases o with _ | v
  · simp [Zod.strWithDefault, fieldPresentFails]
  · cases v <;> simp [Zod.strWithDefault, fieldPresentFails, Json.isStr]

theorem nullableStrWithDefault_eq_none_iff (d : Option String) (o : Option Json) :
    Zod.nullableStrWithDefault d o = none ↔ fieldPresentFails Json.isStrOrNull o := by
  rcases o with _ | v
  · simp [Zod.nullableStrWithDefault, fieldPresentFails]
  · cases v <;>
      simp [Zod.nullableStrWithDefault, fieldPresentFails, Json.isStrOrNull, Json.isStr,
        Json.isNull]

theorem optNullableStr_eq_none_iff (o : Option Json) :
    Zod.optNullableStr o = none ↔ fieldPresentFails Json.isStrOrNull o := by
  rcases o with _ | v
  · simp [Zod.optNullableStr, fieldPresentFails]
  · cases v <;>
      simp [Zod.optNullableStr, fieldPresentFails, Json.isStrOrNull, Json.isStr, Json.isNull]


/-- C5 counterexample: `ArtworkSchema.parse` accepts an `id` that is the
non-integer number 1.5, because the schema uses a plain number check with
no integrality constraint.  The parsed record carries the fractional id. -/
theorem artworkSchema_accepts_noninteger_id_cx :
    ArtworkSchema.parse nonIntegerIdJson = some nonIntegerIdResult ∧
    nonIntegerIdResult.id.den = 2 ∧ ∀ n : ℤ, nonIntegerIdResult.id ≠ (n : Rat) := by
  refine ⟨rfl, ?_, ?_⟩
  · norm_num [nonIntegerIdResult, Rat.den]
  · intro n hn
    have h1 : nonIntegerIdResult.id.den = 2 := by norm_num [nonIntegerIdResult, Rat.den]
    rw [hn, Rat.den_intCast] at h1
    cases h1


/-- C5 amended: `ArtworkSchema.parse` fails exactly when `id` is missing or
is not a number (integrality is NOT checked), or when a present field has
the wrong type: a non-string `title`, or a value that is neither string nor
null in any of the nullable fields. -/
theorem artworkSchema_rejects_iff (j : Json) :
    ArtworkSchema.parse j = none ↔
      fieldMissingOrFails Json.isNum (j.getField "id")
      ∨ fieldPresentFails Json.isStr (j.getField "title")
      ∨ fieldPresentFails Json.isStrOrNull (j.getField "artist_title")
      ∨ fieldPresentFails Json.isStrOrNull (j.getField "image_id")
      ∨ fieldPresentFails Json.isStrOrNull (j.getField "date_display")
      ∨ fieldPresentFails Json.isStrOrNull (j.getField "medium_display")
      ∨ fieldPresentFails Json.isStrOrNull (j.getField "place_of_origin")
      ∨ fieldPresentFails Json.isStrOrNull (j.getField "dimensions") := by
  rw [← reqNumber_eq_none_iff, ← strWithDefault_eq_none_iff "Unbekannter Titel",
    ← nullableStrWithDefault_eq_none_iff (some "Unbekannter Künstler") (j.getField "artist_title"),
    ← nullableStrWithDefault_eq_none_iff none (j.getField "image_id"),
    ← optNullableStr_eq_none_iff (j.getField "date_display"),
    ← optNullableStr_eq_none_iff (j.getField "medium_display"),
    ← optNullableStr_eq_none_iff (j.getField "place_of_origin"),
    ← optNullableStr_eq_none_iff (j.getField "dimensions")]
  constructor
  · intro hp
    rcases Option.eq_none_or_eq_some (Zod.reqNumber (j.getField "id")) with h1 | ⟨q, h1⟩
    · exact Or.inl h1
    rcases Option.eq_none_or_eq_some
        (Zod.strWithDefault "Unbekannter Titel" (j.getField "title")) with h2 | ⟨t, h2⟩
    · exact Or.inr (Or.inl h2)
    rcases Option.eq_none_or_eq_some
        (Zod.nullableStrWithDefault (some "Unbekannter Künstler")
          (j.getField "artist_title")) with h3 | ⟨v3, h3⟩
    · exact Or.inr (Or.inr (Or.inl h3))
    rcases Option.eq_none_or_eq_some
        (Zod.nullableStrWithDefault none (j.getField "image_id")) with h4 | ⟨v4, h4⟩
    · exact Or.inr (Or.inr (Or.inr (Or.inl h4)))
    rcases Option.eq_none_or_eq_some
        (Zod.optNullableStr (j.getField "date_display")) with h5 | ⟨v5, h5⟩
    · exact Or.inr (Or.inr (Or.inr (Or.inr (Or.inl h5))))
    rcases Option.eq_none_or_eq_some
        (Zod.optNullableStr (j.getField "medium_display")) with h6 | ⟨v6, h6⟩
    · exact Or.inr (Or.inr (Or.inr (Or.inr (Or.inr (Or.inl h6)))))
    rcases Option.eq_none_or_eq_some
        (Zod.optNullableStr (j.getField "place_of_origin")) with h7 | ⟨v7, h7⟩
    · exact Or.inr (Or.inr (Or.inr (Or.inr (Or.inr (Or.inr (Or.inl h7))))))
    rcases Option.eq_none_or_eq_some
        (Zod.optNullableStr (j.getField "dimensions")) with h8 | ⟨v8, h8⟩
    · exact Or.inr (Or.inr (Or.inr (Or.inr (Or.inr (Or.inr (Or.inr h8))))))
    simp [ArtworkSchema.parse, h1, h2, h3, h4, h5, h6, h7, h8] at hp
  · intro h
    rcases h with h | h | h | h | h | h | h | h <;>
      simp [ArtworkSchema.parse, h]


/-- C2 counterexample: `SavedArtworkSchema.parse` accepts a record whose
note has 501 characters — the schema's note field has no length bound, so
no failure of kind NoteTooLong can come from it. -/
theorem savedArtworkSchema_accepts_long_note_cx :
    SavedArtworkSchema.parse longNoteJson = some longNoteRecord ∧
    longNoteRecord.note.length = 501 := by
  constructor
  · rfl
  · show (List.replicate 501 'a').length = 501
    rw [List.length_replicate]

/-- C2 amended: `SavedArtworkSchema.parse` defaults an absent note to the
empty string and accepts a note of any length, the 501-character one
included (it round-trips every well-typed record unchanged); the
500-character bound lives only in `NoteSchema`, which the gallery store
never invokes. -/
theorem savedArtworkSchema_note_amended :
    (∀ (j : Json) (r : SavedArtwork),
        SavedArtworkSchema.parse j = some r → j.getField "note" = none → r.note = "")
    ∧ (∀ a : SavedArtwork, SavedArtworkSchema.parse a.encode = some a)
    ∧ (∀ (j : Json) (n : Note), NoteSchema.parse j = some n → n.note.length ≤ 500) := by
  refine ⟨?_, SavedArtworkSchema.parse_encode, ?_⟩
  · intro j r h hnote
    simp only [SavedArtworkSchema.parse, hnote, Option.bind_eq_bind, Option.bind_eq_some,
      Option.some.injEq] at h
    obtain ⟨q, -, t, -, v3, -, v4, -, v5, -, v6, -, v7, -, v8, -, note, hnoteEq, hr⟩ := h
    simp only [Zod.strWithDefault, Option.some.injEq] at hnoteEq
    subst hr
    exact hnoteEq.symm
  · intro j n h
    simp only [NoteSchema.parse, Option.bind_eq_bind, Option.bind_eq_some,
      Option.some.injEq] at h
    obtain ⟨q, -, note, hnoteEq, hn⟩ := h
    rcases hfield : j.getField "note" with _ | v
    · rw [hfield] at hnoteEq
      simp only [Zod.strMaxWithDefault, Option.some.injEq] at hnoteEq
      subst hn
      simp [← hnoteEq]
    · rw [hfield] at hnoteEq
      rcases v with _ | b | q2 | s | el | fl <;> simp [Zod.strMaxWithDefault] at hnoteEq
      obtain ⟨hle, rfl⟩ := hnoteEq
      subst hn
      simpa using hle


/-- C6 counterexample: a payload with `artist_title` explicitly null is
accepted, and the null passes through to the result — it is NOT replaced by
the default creator string, because a zod default fires only on an absent
field, never on null. -/
theorem artworkSchema_null_creator_cx :
    ArtworkSchema.parse artistNullJson = some artistNullResult ∧
    artistNullResult.artist_title = none ∧
    ∀ s : String, artistNullResult.artist_title ≠ some s := by
  refine ⟨rfl, rfl, ?_⟩
  intro s h
  cases h

/-- C6 amended: defaults fire on absent fields only, and carry the German
literals of the source.  An absent `title` becomes "Unbekannter Titel" but a
null `title` is rejected; an absent `artist_title` becomes
"Unbekannter Künstler" but a null one stays null; an absent `image_id`
becomes null. -/
theorem artworkSchema_defaults_amended :
    (∀ (j : Json) (r : Artwork), ArtworkSchema.parse j = some r →
        j.getField "title" = none → r.title = "Unbekannter Titel")
    ∧ (∀ j : Json, j.getField "title" = some .null → ArtworkSchema.parse j = none)
    ∧ (∀ (j : Json) (r : Artwork), ArtworkSchema.parse j = some r →
        j.getField "artist_title" = none → r.artist_title = some "Unbekannter Künstler")
    ∧ (∀ (j : Json) (r : Artwork), ArtworkSchema.parse j = some r →
        j.getField "artist_title" = some .null → r.artist_title = none)
    ∧ (∀ (j : Json) (r : Artwork), ArtworkSchema.parse j = some r →
        j.getField "image_id" = none → r.image_id = none) := by
  refine ⟨?_, ?_, ?_, ?_, ?_⟩
  · intro j r h hf
    simp only [ArtworkSchema.parse, hf, Option.bind_eq_bind, Option.bind_eq_some,
      Option.some.injEq] at h
    obtain ⟨q, -, t, ht, v3, -, v4, -, v5, -, v6, -, v7, -, v8, -, hr⟩ := h
    simp only [Zod.strWithDefault, Option.some.injEq] at ht
    subst hr
    exact ht.symm
  · intro j hf
    simp [ArtworkSchema.parse, hf, Zod.strWithDefault]
  · intro j r h hf
    simp only [ArtworkSchema.parse, hf, Option.bind_eq_bind, Option.bind_eq_some,
      Option.some.injEq] at h
    obtain ⟨q, -, t, -, v3, hv3, v4, -, v5, -, v6, -, v7, -, v8, -, hr⟩ := h
    simp only [Zod.nullableStrWithDefault, Option.some.injEq] at hv3
    subst hr
    exact hv3.symm
  · intro j r h hf
    simp only [ArtworkSchema.parse, hf, Option.bind_eq_bind, Option.bind_eq_some,
      Option.some.injEq] at h
    obtain ⟨q, -, t, -, v3, hv3, v4, -, v5, -, v6, -, v7, -, v8, -, hr⟩ := h
    simp only [Zod.nullableStrWithDefault, Option.some.injEq] at hv3
    subst hr
    exact hv3.symm
  · intro j r h hf
    simp only [ArtworkSchema.parse, hf, Option.bind_eq_bind, Option.bind_eq_some,
      Option.some.injEq] at h
    obtain ⟨q, -, t, -, v3, -, v4, hv4, v5, -, v6, -, v7, -, v8, -, hr⟩ := h
    simp only [Zod.nullableStrWithDefault, Option.some.injEq] at hv4
    subst hr
    exact hv4.symm


/-- C4: `loadGallery` is total and never touches the slot it reads.  An
absent raw value, an unparsable raw value and a parsed non-array all give
the empty collection; for an array, a record is in the result exactly when
it is the successful validation of some element, so failing elements are
dropped and every valid element is kept.  Concretely, an array of one
well-formed record and one record missing `id` loads as exactly the
well-formed record. -/
theorem loadGallery_corruption_resilience :
    loadGallery Storage.empty = []
    ∧ (∀ st : Storage, st.slot = some .malformed → loadGallery st = [])
    ∧ (∀ (st : Storage) (j : Json), st.slot = some (.json j) → j.isArr = false →
        loadGallery st = [])
    ∧ (∀ (elems : List Json) (r : SavedArtwork),
        r ∈ loadGallery ⟨some (.json (.arr elems))⟩ ↔
          ∃ x ∈ elems, SavedArtworkSchema.parse x = some r)
    ∧ loadGallery ⟨some (.json (.arr [goodRecordJson, missingIdJson]))⟩ = [goodRecord] := by
  refine ⟨rfl, ?_, ?_, ?_, ?_⟩
  · intro st h
    simp [loadGallery, h]
  · intro st j hslot hj
    cases j <;> simp_all [loadGallery, Json.isArr]
  · intro elems r
    simp [loadGallery, List.mem_filterMap]
  · rfl


/-- One `addToGallery` call keeps the persisted identifiers pairwise
distinct. -/
theorem addToGallery_step_nodup (a : Artwork) (st : Storage)
    (hnd : ((loadGallery st).map SavedArtwork.id).Nodup) :
    ((loadGallery (addToGallery a st).2).map SavedArtwork.id).Nodup := by
  rw [addToGallery_eq]
  by_cases hex : (loadGallery st).any (fun item => item.id == a.id)
  · simpa [hex] using hnd
  · have hne : ∀ x ∈ loadGallery st, ¬ x.id = a.id := by
      simpa [List.any_eq_true] using hex
    simp only [hex, if_false, Bool.false_eq_true, loadGallery_saveGallery, List.map_append,
      List.map_cons, List.map_nil]
    rw [List.nodup_append]
    refine ⟨hnd, List.nodup_singleton _, ?_⟩
    intro x hx hy
    simp only [mkSaved, List.mem_map] at hx
    obtain ⟨r, hr, hrid⟩ := hx
    simp only [mkSaved, List.mem_singleton] at hy
    subst hy
    exact hne r hr (by simpa using hrid)

/-- C1: starting from a collection with pairwise-distinct identifiers, any
sequence of `addToGallery` calls keeps them pairwise distinct; adding the
same item twice answers true then false, the second call leaves storage
untouched, and the collection grows by exactly one over the pair. -/
theorem addToGallery_uniqueness :
    (∀ (st : Storage) (artworks : List Artwork),
        ((loadGallery st).map SavedArtwork.id).Nodup →
        ((loadGallery (addSeq st artworks)).map SavedArtwork.id).Nodup)
    ∧ (∀ (a : Artwork) (st : Storage),
        a.id ∉ (loadGallery st).map SavedArtwork.id →
        (addToGallery a st).1 = .ok true
        ∧ (addToGallery a (addToGallery a st).2).1 = .ok false
        ∧ (addToGallery a (addToGallery a st).2).2 = (addToGallery a st).2
        ∧ (loadGallery (addToGallery a st).2).length = (loadGallery st).length + 1) := by
  constructor
  · intro st artworks
    induction artworks generalizing st with
    | nil => intro h; simpa [addSeq] using h
    | cons a rest ih =>
      intro h
      have h1 := addToGallery_step_nodup a st h
      simpa [addSeq] using ih _ h1
  · intro a st hne
    have hex : (loadGallery st).any (fun item => item.id == a.id) = false := by
      simp only [List.any_eq_false, beq_eq_false_iff_ne, ne_eq]
      intro x hx hxid
      exact hne (List.mem_map.mpr ⟨x, hx, by simpa using hxid⟩)
    have hfst : addToGallery a st =
        (.ok true, saveGallery (loadGallery st ++ [mkSaved a])) := by
      rw [addToGallery_eq, hex]
      simp
    have hload1 : loadGallery (addToGallery a st).2 = loadGallery st ++ [mkSaved a] := by
      rw [hfst, loadGallery_saveGallery]
    have hex2 : (loadGallery (addToGallery a st).2).any
        (fun item => item.id == a.id) = true := by
      rw [hload1]
      simp [List.any_eq_true, mkSaved]
    have hsnd : addToGallery a (addToGallery a st).2 =
        (.ok false, (addToGallery a st).2) := by
      rw [addToGallery_eq, hex2]
      simp
    refine ⟨by rw [hfst], by rw [hsnd], by rw [hsnd], ?_⟩
    rw [hload1]
    simp


/-- C7: saving a catalog item whose identifier is not yet in the gallery and
loading back yields a record that matches the item on every copied field and
carries the empty note. -/
theorem addToGallery_roundtrip (a : Artwork) (st : Storage)
    (hne : a.id ∉ (loadGallery st).map SavedArtwork.id) :
    ∃ r ∈ loadGallery (addToGallery a st).2,
      r.id = a.id ∧ r.title = a.title ∧ r.artist_title = a.artist_title
      ∧ r.image_id = a.image_id ∧ r.date_display = a.date_display
      ∧ r.medium_display = a.medium_display ∧ r.place_of_origin = a.place_of_origin
      ∧ r.dimensions = a.dimensions ∧ r.note = "" := by
  have hex : (loadGallery st).any (fun item => item.id == a.id) = false := by
    simp only [List.any_eq_false, beq_eq_false_iff_ne, ne_eq]
    intro x hx hxid
    exact hne (List.mem_map.mpr ⟨x, hx, by simpa using hxid⟩)
  refine ⟨mkSaved a, ?_, rfl, rfl, rfl, rfl, rfl, rfl, rfl, rfl, rfl⟩
  rw [addToGallery_eq, hex]
  simp only [Bool.false_eq_true, if_false, loadGallery_saveGallery]
  exact List.mem_append_right _ (List.mem_singleton_self _)

/-- C8: `updateNote` with a valid note and `removeFromGallery` both answer
false on an identifier that is not in the gallery, and leave the stored slot
exactly as it was, so a load before and after gives the same collection. -/
theorem notFound_noop (artworkId : Rat) (note : String) (st : Storage)
    (hlen : note.length ≤ 500)
    (hne : artworkId ∉ (loadGallery st).map SavedArtwork.id) :
    updateNote artworkId note st = (.ok false, st)
    ∧ removeFromGallery artworkId st = (false, st)
    ∧ loadGallery (updateNote artworkId note st).2 = loadGallery st
    ∧ loadGallery (removeFromGallery artworkId st).2 = loadGallery st := by
  have hex : (loadGallery st).any (fun item => item.id == artworkId) = false := by
    simp only [List.any_eq_false, beq_eq_false_iff_ne, ne_eq]
    intro x hx hxid
    exact hne (List.mem_map.mpr ⟨x, hx, by simpa using hxid⟩)
  have hfind : (loadGallery st).findIdx? (fun item => item.id == artworkId) = none := by
    rw [List.findIdx?_eq_none_iff]
    simpa [List.any_eq_false] using hex
  have hu := updateNote_not_found artworkId note st hlen hfind
  have hr : removeFromGallery artworkId st = (false, st) := by
    simp only [removeFromGallery, hex, Bool.false_eq_true, if_false]
  exact ⟨hu, hr, by rw [hu], by rw [hr]⟩


/-- Replacing the first record a search finds by a record the search also
accepts does not move the index the search finds. -/
theorem findIdx?_set_found {α : Type} {l : List α} {p : α → Bool} {i : Nat} {v : α}
    (hfind : l.findIdx? p = some i) (hv : p v = true) :
    (l.set i v).findIdx? p = some i := by
  rcases List.findIdx?_eq_some_iff_getElem.mp hfind with ⟨hi, hp, hbefore⟩
  apply List.findIdx?_eq_some_iff_getElem.mpr
  refine ⟨by simpa using hi, ?_, ?_⟩
  · rw [List.getElem_set_self]
    exact hv
  · intro j hj
    rw [List.getElem_set_ne (by omega)]
    exact hbefore j hj

/-- After that replacement the search returns the replacement itself. -/
theorem find?_set_found {α : Type} {l : List α} {p : α → Bool} {i : Nat} {v : α}
    (hfind : l.findIdx? p = some i) (hv : p v = true) :
    (l.set i v).find? p = some v := by
  have h := findIdx?_set_found hfind hv
  rcases List.findIdx?_eq_some_iff_getElem.mp h with ⟨hi, hp, hbefore⟩
  rw [List.find?_eq_some]
  refine ⟨hv, (l.set i v).take i, (l.set i v).drop (i + 1), ?_, ?_⟩
  · conv_lhs => rw [← List.take_append_drop i (l.set i v)]
    congr 1
    rw [List.drop_eq_getElem_cons hi]
    congr 1
    simp
  · intro x hx
    obtain ⟨j, hj, hjx⟩ := List.getElem_of_mem hx
    have hjlt : j < i := by
      have := List.length_take_le i (l.set i v)
      have h2 : (List.take i (l.set i v)).length = min i (l.set i v).length := by
        simp
      omega
    have : (l.set i v).take i = (l.set i v).take i := rfl
    rw [List.getElem_take] at hjx
    subst hjx
    simpa using hbefore j hjlt


/-- C9: updating the note of a present record with a valid note answers
true, stores that note, and doing it again answers true and leaves the
stored note at the same string. -/
theorem updateNote_idempotent (artworkId : Rat) (note : String) (st : Storage)
    (hlen : note.length ≤ 500)
    (hmem : artworkId ∈ (loadGallery st).map SavedArtwork.id) :
    (updateNote artworkId note st).1 = .ok true
    ∧ (∃ r, (loadGallery (updateNote artworkId note st).2).find?
          (fun x => x.id == artworkId) = some r ∧ r.note = note)
    ∧ (updateNote artworkId note (updateNote artworkId note st).2).1 = .ok true
    ∧ (∃ r, (loadGallery (updateNote artworkId note
          (updateNote artworkId note st).2).2).find?
          (fun x => x.id == artworkId) = some r ∧ r.note = note) := by
  have hexists : ∃ x, x ∈ loadGallery st ∧ (x.id == artworkId) = true := by
    obtain ⟨x, hx, hxid⟩ := List.mem_map.mp hmem
    exact ⟨x, hx, by simpa using hxid⟩
  have hsome : ((loadGallery st).findIdx? (fun x => x.id == artworkId)).isSome := by
    rw [List.findIdx?_isSome, List.any_eq_true]
    exact hexists
  obtain ⟨i, hfind⟩ := Option.isSome_iff_exists.mp hsome
  obtain ⟨item, hitem, hpitem⟩ := findIdx?_getElem?_isSome hfind
  set withNote : SavedArtwork := { item with note := note } with hwn
  have hpw : (withNote.id == artworkId) = true := hpitem
  have h1 := updateNote_found artworkId note st i item hlen hfind hitem
  have hload1 : loadGallery (updateNote artworkId note st).2 =
      (loadGallery st).set i withNote := by
    rw [h1, loadGallery_saveGallery]
  have hfind2 : ((loadGallery st).set i withNote).findIdx?
      (fun x => x.id == artworkId) = some i := findIdx?_set_found hfind hpw
  have hi : i < (loadGallery st).length :=
    (List.findIdx?_eq_some_iff_getElem.mp hfind).1
  have hitem2 : ((loadGallery st).set i withNote)[i]? = some withNote :=
    List.getElem?_set_self (by simpa using hi)
  have h2 := updateNote_found artworkId note (updateNote artworkId note st).2 i withNote hlen
    (by rw [hload1]; exact hfind2) (by rw [hload1]; exact hitem2)
  have hww : ({ withNote with note := note } : SavedArtwork) = withNote := rfl
  refine ⟨by rw [h1], ?_, by rw [h2], ?_⟩
  · refine ⟨withNote, ?_, rfl⟩
    rw [hload1]
    exact find?_set_found hfind hpw
  · refine ⟨withNote, ?_, rfl⟩
    rw [h2]
    simp only [loadGallery_saveGallery, hload1, hww, List.set_set]
    exact find?_set_found hfind hpw


/-- C3: on a gallery containing the identifier, a note of exactly 500
characters is accepted by `updateNote`; any longer note makes `updateNote`
fail with the note-length validation error before reading storage — the
outcome is the same for every storage state and the slot is untouched. -/
theorem updateNote_length_boundary :
    (∀ (artworkId : Rat) (note : String) (st : Storage),
        note.length = 500 → artworkId ∈ (loadGallery st).map SavedArtwork.id →
        (updateNote artworkId note st).1 = .ok true)
    ∧ (∀ (artworkId : Rat) (note : String) (st : Storage),
        500 < note.length →
        updateNote artworkId note st = (.error .noteTooLong, st)) := by
  constructor
  · intro artworkId note st hlen hmem
    have hexists : ∃ x, x ∈ loadGallery st ∧ (x.id == artworkId) = true := by
      obtain ⟨x, hx, hxid⟩ := List.mem_map.mp hmem
      exact ⟨x, hx, by simpa using hxid⟩
    have hsome : ((loadGallery st).findIdx? (fun x => x.id == artworkId)).isSome := by
      rw [List.findIdx?_isSome, List.any_eq_true]
      exact hexists
    obtain ⟨i, hfind⟩ := Option.isSome_iff_exists.mp hsome
    obtain ⟨item, hitem, -⟩ := findIdx?_getElem?_isSome hfind
    rw [updateNote_found artworkId note st i item (le_of_eq hlen) hfind hitem]
  · intro artworkId note st hlen
    simp only [updateNote, if_pos hlen]

/-- C10: the load path never deduplicates — two schema-valid raw records
with the same identifier both come back from a load; `removeFromGallery`
then removes every record with the identifier in one true-returning call,
keeping the other records in their order, while `updateNote` rewrites only
the first matching record and leaves every other position unchanged. -/
theorem loadGallery_duplicate_id_semantics :
    (∀ (j₁ j₂ : Json) (r₁ r₂ : SavedArtwork),
        SavedArtworkSchema.parse j₁ = some r₁ → SavedArtworkSchema.parse j₂ = some r₂ →
        r₁.id = r₂.id →
        loadGallery ⟨some (.json (.arr [j₁, j₂]))⟩ = [r₁, r₂])
    ∧ (∀ (artworkId : Rat) (st : Storage),
        artworkId ∈ (loadGallery st).map SavedArtwork.id →
        (removeFromGallery artworkId st).1 = true
        ∧ loadGallery (removeFromGallery artworkId st).2 =
            (loadGallery st).filter (fun x => x.id != artworkId)
        ∧ ∀ r ∈ loadGallery (removeFromGallery artworkId st).2, r.id ≠ artworkId)
    ∧ (∀ (artworkId : Rat) (note : String) (st : Storage) (i : Nat) (item : SavedArtwork),
        note.length ≤ 500 →
        (loadGallery st).findIdx? (fun x => x.id == artworkId) = some i →
        (loadGallery st)[i]? = some item →
        loadGallery (updateNote artworkId note st).2 =
          (loadGallery st).set i { item with note := note }) := by
  refine ⟨?_, ?_, ?_⟩
  · intro j₁ j₂ r₁ r₂ h1 h2 hid
    simp [loadGallery, h1, h2]
  · intro artworkId st hmem
    have hex : (loadGallery st).any (fun item => item.id == artworkId) = true := by
      rw [List.any_eq_true]
      obtain ⟨x, hx, hxid⟩ := List.mem_map.mp hmem
      exact ⟨x, hx, by simpa using hxid⟩
    have hrem : removeFromGallery artworkId st =
        (true, saveGallery ((loadGallery st).filter (fun x => x.id != artworkId))) := by
      simp only [removeFromGallery, hex, if_pos]
    refine ⟨by rw [hrem], by rw [hrem, loadGallery_saveGallery], ?_⟩
    intro r hr
    rw [hrem, loadGallery_saveGallery] at hr
    have := List.of_mem_filter hr
    simpa using this
  · intro artworkId note st i item hlen hfind hitem
    rw [updateNote_found artworkId note st i item hlen hfind hitem, loadGallery_saveGallery]


/-- C1 witness: the uniqueness theorem applied to the empty storage and two
concrete additions, and to a concrete double-add of the same item. -/
theorem addToGallery_uniqueness_witness :
    ((loadGallery (addSeq Storage.empty [sampleArtwork, sampleArtwork2])).map
        SavedArtwork.id).Nodup
    ∧ ((addToGallery sampleArtwork Storage.empty).1 = .ok true
      ∧ (addToGallery sampleArtwork
          (addToGallery sampleArtwork Storage.empty).2).1 = .ok false
      ∧ (addToGallery sampleArtwork
          (addToGallery sampleArtwork Storage.empty).2).2 =
          (addToGallery sampleArtwork Storage.empty).2
      ∧ (loadGallery (addToGallery sampleArtwork Storage.empty).2).length =
          (loadGallery Storage.empty).length + 1) :=
  ⟨addToGallery_uniqueness.1 Storage.empty [sampleArtwork, sampleArtwork2] (by decide),
   addToGallery_uniqueness.2 sampleArtwork Storage.empty (by decide)⟩

/-- C2 witness: the amended note theorem applied to a record without a note
field, to the 501-character record, and to a concrete note payload. -/
theorem savedArtworkSchema_note_amended_witness :
    goodRecord.note = ""
    ∧ SavedArtworkSchema.parse longNoteRecord.encode = some longNoteRecord
    ∧ ∀ n : Note, NoteSchema.parse noteIdOnlyJson = some n → n.note.length ≤ 500 :=
  ⟨savedArtworkSchema_note_amended.1 goodRecordJson goodRecord rfl rfl,
   savedArtworkSchema_note_amended.2.1 longNoteRecord,
   fun n h => savedArtworkSchema_note_amended.2.2 noteIdOnlyJson n h⟩

/-- C3 witness: the boundary theorem applied to the sample gallery with a
500-character note and with a 501-character note. -/
theorem updateNote_length_boundary_witness :
    (updateNote 1 note500 galleryWithSample).1 = .ok true
    ∧ updateNote 1 longNote galleryWithSample =
        (.error .noteTooLong, galleryWithSample) :=
  ⟨updateNote_length_boundary.1 1 note500 galleryWithSample
      (List.length_replicate 500 'b') (by decide),
   updateNote_length_boundary.2 1 longNote galleryWithSample
      (by rw [show longNote.length = 501 from List.length_replicate 501 'a']; decide)⟩

/-- C4 witness: the load theorem applied to a malformed raw value, a parsed
non-array, and the two-record array with one record missing its id. -/
theorem loadGallery_corruption_resilience_witness :
    loadGallery ⟨some .malformed⟩ = []
    ∧ loadGallery ⟨some (.json (.obj []))⟩ = []
    ∧ (goodRecord ∈ loadGallery ⟨some (.json (.arr [goodRecordJson, missingIdJson]))⟩ ↔
        ∃ x ∈ [goodRecordJson, missingIdJson], SavedArtworkSchema.parse x = some goodRecord) :=
  ⟨loadGallery_corruption_resilience.2.1 ⟨some .malformed⟩ rfl,
   loadGallery_corruption_resilience.2.2.1 ⟨some (.json (.obj []))⟩ (.obj []) rfl rfl,
   loadGallery_corruption_resilience.2.2.2.1 [goodRecordJson, missingIdJson] goodRecord⟩

/-- C6 witness: the amended defaults theorem applied to an id-only payload,
a null-title payload, and the null-creator payload. -/
theorem artworkSchema_defaults_amended_witness :
    defaultedResult.title = "Unbekannter Titel"
    ∧ ArtworkSchema.parse titleNullJson = none
    ∧ defaultedResult.artist_title = some "Unbekannter Künstler"
    ∧ artistNullResult.artist_title = none
    ∧ defaultedResult.image_id = none :=
  ⟨artworkSchema_defaults_amended.1 idOnlyJson defaultedResult rfl rfl,
   artworkSchema_defaults_amended.2.1 titleNullJson rfl,
   artworkSchema_defaults_amended.2.2.1 idOnlyJson defaultedResult rfl rfl,
   artworkSchema_defaults_amended.2.2.2.1 artistNullJson artistNullResult rfl rfl,
   artworkSchema_defaults_amended.2.2.2.2 idOnlyJson defaultedResult rfl rfl⟩

/-- C7 witness: the round-trip theorem applied to the sample item and the
empty storage. -/
theorem addToGallery_roundtrip_witness :
    ∃ r ∈ loadGallery (addToGallery sampleArtwork Storage.empty).2,
      r.id = sampleArtwork.id ∧ r.title = sampleArtwork.title
      ∧ r.artist_title = sampleArtwork.artist_title
      ∧ r.image_id = sampleArtwork.image_id
      ∧ r.date_display = sampleArtwork.date_display
      ∧ r.medium_display = sampleArtwork.medium_display
      ∧ r.place_of_origin = sampleArtwork.place_of_origin
      ∧ r.dimensions = sampleArtwork.dimensions ∧ r.note = "" :=
  addToGallery_roundtrip sampleArtwork Storage.empty (by decide)

/-- C8 witness: the not-found theorem applied to id 999 on the empty
storage, matching the testable property of the spec verbatim. -/
theorem notFound_noop_witness :
    updateNote 999 "x" Storage.empty = (.ok false, Storage.empty)
    ∧ removeFromGallery 999 Storage.empty = (false, Storage.empty)
    ∧ loadGallery (updateNote 999 "x" Storage.empty).2 = loadGallery Storage.empty
    ∧ loadGallery (removeFromGallery 999 Storage.empty).2 = loadGallery Storage.empty :=
  notFound_noop 999 "x" Storage.empty (by decide) (by decide)

/-- C9 witness: the idempotence theorem applied to the sample gallery and a
concrete note. -/
theorem updateNote_idempotent_witness :
    (updateNote 1 "Love the brushwork" galleryWithSample).1 = .ok true
    ∧ (∃ r, (loadGallery (updateNote 1 "Love the brushwork" galleryWithSample).2).find?
          (fun x => x.id == 1) = some r ∧ r.note = "Love the brushwork")
    ∧ (updateNote 1 "Love the brushwork"
        (updateNote 1 "Love the brushwork" galleryWithSample).2).1 = .ok true
    ∧ (∃ r, (loadGallery (updateNote 1 "Love the brushwork"
          (updateNote 1 "Love the brushwork" galleryWithSample).2).2).find?
          (fun x => x.id == 1) = some r ∧ r.note = "Love the brushwork") :=
  updateNote_idempotent 1 "Love the brushwork" galleryWithSample (by decide) (by decide)

/-- C10 witness: the duplicate-semantics theorem applied to two copies of
the same raw record, and to the sample gallery. -/
theorem loadGallery_duplicate_id_semantics_witness :
    loadGallery ⟨some (.json (.arr [goodRecordJson, goodRecordJson]))⟩ =
      [goodRecord, goodRecord]
    ∧ ((removeFromGallery 1 galleryWithSample).1 = true
      ∧ loadGallery (removeFromGallery 1 galleryWithSample).2 =
          (loadGallery galleryWithSample).filter (fun x => x.id != 1)
      ∧ ∀ r ∈ loadGallery (removeFromGallery 1 galleryWithSample).2, r.id ≠ 1)
    ∧ loadGallery (updateNote 1 "x" galleryWithSample).2 =
        (loadGallery galleryWithSample).set 0 { sampleSaved with note := "x" } :=
  ⟨loadGallery_duplicate_id_semantics.1 goodRecordJson goodRecordJson goodRecord goodRecord
      rfl rfl rfl,
   loadGallery_duplicate_id_semantics.2.1 1 galleryWithSample (by decide),
   loadGallery_duplicate_id_semantics.2.2 1 "x" galleryWithSample 0 sampleSaved
      (by decide) (by decide) (by decide)⟩

end ArtExplorer
